import Mathlib

/-
Shallow embedding of the message-routing and human-in-the-loop approval core
of the `my-assistant` repository:

  * src/src/core/hitl.py        (PendingAction, HITLManager)
  * src/src/core/router.py      (MessageRouter)
  * src/src/integrations/whatsapp.py (parse_incoming_message)

Modelling conventions:

  * `datetime.now()` is modelled by an explicit integer timestamp (seconds)
    passed into every operation; `timedelta(minutes=m)` is `m * 60`.
  * Python dicts used as keyed stores are modelled as insertion-ordered
    association lists (Python dicts preserve insertion order).
  * The Python `set` of processed message ids is modelled as an
    insertion-ordered list of distinct elements; set iteration order
    (used by the eviction step) is modelled as insertion order.
  * Action payload dicts are modelled as an opaque string.
  * `uuid.uuid4()` is modelled as an explicit fresh-id argument.
  * Outbound network sends (`WhatsAppIntegration.send_message`) are recorded
    in an output list of `Send` records and modelled as succeeding; the
    routing logic under study never inspects the network result beyond
    returning it.
-/

namespace Assistant

/-- Python whitespace as stripped by `str.strip()` / matched by regex `\s`
    (the characters relevant to this code base). -/
def isSpaceChar (c : Char) : Bool :=
  c = ' ' || c = '\t' || c = '\n' || c = '\r'

/-- Python `s.lower()` (ASCII case folding; every constant the routing logic
    compares against is already lower case). -/
def strLower (s : String) : String :=
  ⟨s.data.map Char.toLower⟩

/-- Python `s.strip()`: remove leading and trailing whitespace. -/
def strTrim (s : String) : String :=
  ⟨((s.data.dropWhile isSpaceChar).reverse.dropWhile isSpaceChar).reverse⟩

/-- Python `len(s)` (number of code points). -/
def strLen (s : String) : Nat :=
  s.data.length

/-- Python falsiness of a string (`not s`). -/
def strIsEmpty (s : String) : Bool :=
  s.data.isEmpty

/-- Python `s.startswith(pre)`. -/
def strStarts (s pre : String) : Bool :=
  pre.data.isPrefixOf s.data

/-- `needle` occurs as a contiguous run inside `hay`. -/
def isSubChars (needle hay : List Char) : Bool :=
  match hay with
  | [] => needle.isEmpty
  | _ :: t => needle.isPrefixOf hay || isSubChars needle t

/-- Python `needle in hay` on strings: substring containment. -/
def containsSub (hay needle : String) : Bool :=
  isSubChars needle.data hay.data

/-- Association-list lookup, modelling Python `d.get(k)` / `k in d`. -/
def lookupAssoc {α : Type} (l : List (String × α)) (k : String) : Option α :=
  (l.find? (fun p => p.1 == k)).map (·.2)

/-- Association-list update, modelling Python `d[k] = v` (insertion order
    preserved, existing key overwritten in place). -/
def setAssoc {α : Type} (l : List (String × α)) (k : String) (v : α) :
    List (String × α) :=
  if (l.find? (fun p => p.1 == k)).isSome then
    l.map (fun p => if p.1 == k then (k, v) else p)
  else
    l ++ [(k, v)]

/-- `PendingAction` (hitl.py lines 15-64).  `status` ranges over the strings
    "pending", "approved", "rejected" exactly as in the source. -/
structure PendingAction where
  id : String
  action_type : String
  data : String
  created_at : Int
  expires_at : Int
  status : String
  user_response : Option String
  response_at : Option Int
deriving Repr, DecidableEq

/-- `PendingAction.__init__` (hitl.py lines 18-26): stamps creation time and
    `expires_at = created_at + timedelta(minutes=expires_in_minutes)`,
    status "pending".  The default TTL at both call sites is 30 minutes. -/
def PendingAction.make (id action_type data : String) (now : Int)
    (expires_in_minutes : Int) : PendingAction :=
  { id := id
    action_type := action_type
    data := data
    created_at := now
    expires_at := now + expires_in_minutes * 60
    status := "pending"
    user_response := none
    response_at := none }

/-- `PendingAction.is_expired` (hitl.py lines 28-30):
    `datetime.now() > self.expires_at`. -/
def PendingAction.is_expired (a : PendingAction) (now : Int) : Bool :=
  now > a.expires_at

/-- `PendingAction.approve` (hitl.py lines 32-40).  Returns the updated
    action together with the boolean result.  Note: the only guard is
    expiry; the current status is not inspected. -/
def PendingAction.approve (a : PendingAction) (now : Int)
    (user_response : Option String) : PendingAction × Bool :=
  if a.is_expired now then (a, false)
  else ({ a with
            status := "approved"
            user_response := user_response
            response_at := some now }, true)

/-- `PendingAction.reject` (hitl.py lines 42-50); symmetric to `approve`. -/
def PendingAction.reject (a : PendingAction) (now : Int)
    (user_response : Option String) : PendingAction × Bool :=
  if a.is_expired now then (a, false)
  else ({ a with
            status := "rejected"
            user_response := user_response
            response_at := some now }, true)

/-- State of `HITLManager` (hitl.py lines 66-75): the `pending_actions` dict
    keyed by action id (modelled as an insertion-ordered list whose keys are
    the `id` fields), plus the configured auto-approve / auto-reject
    substring pattern lists. -/
structure HITLState where
  pending_actions : List PendingAction
  auto_approve_patterns : List String
  auto_reject_patterns : List String
deriving Repr, DecidableEq

/-- `HITLManager.create_pending_action` (hitl.py lines 98-115): stores a
    fresh action under its id. -/
def HITLState.create_pending_action (h : HITLState) (id action_type data : String)
    (now expires_in_minutes : Int) : PendingAction × HITLState :=
  let action := PendingAction.make id action_type data now expires_in_minutes
  (action, { h with pending_actions := h.pending_actions ++ [action] })

/-- `HITLManager.get_pending_action` (hitl.py lines 117-119): dict lookup. -/
def HITLState.get_pending_action (h : HITLState) (action_id : String) :
    Option PendingAction :=
  h.pending_actions.find? (fun a => a.id == action_id)

/-- The FIRST `get_pending_actions` definition (hitl.py lines 121-128).
    In Python this method is shadowed by the second definition of the same
    name later in the class body (lines 248-255), so it is never the one
    invoked; it would also crash if called, since the
    `self._cleanup_expired_actions()` it begins with does not exist (the
    actual method is named `cleanup_expired_actions`).  Its filter
    (status == "pending" and not expired) is kept here for reference. -/
def HITLState.get_pending_actions_first (h : HITLState) (now : Int) :
    List PendingAction :=
  h.pending_actions.filter (fun a => a.status == "pending" && !(a.is_expired now))

/-- The SECOND, effective `get_pending_actions` definition (hitl.py lines
    248-255): returns ALL stored actions, optionally filtered by status.
    It does not filter out expired or resolved actions.  (The Python code
    returns `to_dict()` serializations; the dictionaries are in bijection
    with the actions, so the actions themselves are returned here.) -/
def HITLState.get_pending_actions (h : HITLState) (status : Option String) :
    List PendingAction :=
  match status with
  | some s => h.pending_actions.filter (fun a => a.status == s)
  | none => h.pending_actions

/-- `HITLManager.cleanup_expired_actions` (hitl.py lines 257-268): removes
    expired actions regardless of status, returns the removed count. -/
def HITLState.cleanup_expired_actions (h : HITLState) (now : Int) :
    HITLState × Nat :=
  let expired := h.pending_actions.filter (fun a => a.is_expired now)
  ({ h with pending_actions :=
      h.pending_actions.filter (fun a => !(a.is_expired now)) },
   expired.length)

/-- The hex-ish identifier character class `[a-f0-9-]` under `re.IGNORECASE`
    (hitl.py lines 160-164). -/
def isHexIdChar (c : Char) : Bool :=
  ('a' ≤ c.toLower && c.toLower ≤ 'f') || c.isDigit || c = '-'

/-- Case-insensitive literal keyword match at the head of `l` (the keyword is
    given in lower case); returns the remainder on success. -/
def matchKeywordCI : List Char → List Char → Option (List Char)
  | [], rest => some rest
  | _ :: _, [] => none
  | k :: ks, c :: cs => if c.toLower = k then matchKeywordCI ks cs else none

/-- After a matched keyword: `\s+([a-f0-9-]{8,})` — one or more whitespace
    characters, then a maximal run of at least 8 identifier characters
    (greedy; no backtracking can help since the two classes are disjoint).
    Returns the captured token. -/
def matchIdAfterSpace (rest : List Char) : Option (List Char) :=
  let sp := rest.takeWhile isSpaceChar
  let rest1 := rest.dropWhile isSpaceChar
  if sp.isEmpty then none
  else
    let tok := rest1.takeWhile isHexIdChar
    if tok.length ≥ 8 then some tok else none

/-- One position of the first pattern
    `(?:approve|reject|yes|no)\s+([a-f0-9-]{8,})`: the alternatives are tried
    in order at the current position. -/
def tryKeywordAlternatives : List (List Char) → List Char → Option (List Char)
  | [], _ => none
  | kw :: kws, l =>
    match matchKeywordCI kw l with
    | some rest =>
      match matchIdAfterSpace rest with
      | some tok => some tok
      | none => tryKeywordAlternatives kws l
    | none => tryKeywordAlternatives kws l

/-- `re.search` for a keyworded pattern: leftmost position wins. -/
def searchKeywordId (kws : List (List Char)) : List Char → Option (List Char)
  | [] => none
  | c :: cs =>
    match tryKeywordAlternatives kws (c :: cs) with
    | some tok => some tok
    | none => searchKeywordId kws cs

/-- `re.search` for `#([a-f0-9-]{8,})`: a literal `#` followed immediately by
    at least 8 identifier characters. -/
def searchHashId : List Char → Option (List Char)
  | [] => none
  | c :: cs =>
    if c = '#' then
      let tok := cs.takeWhile isHexIdChar
      if tok.length ≥ 8 then some tok else searchHashId cs
    else searchHashId cs

/-- `HITLManager._extract_action_id` (hitl.py lines 156-171): the three
    case-insensitive patterns, tried in order, each via `re.search`. -/
def extract_action_id (message : String) : Option String :=
  let chars := message.toList
  match searchKeywordId
      ["approve".toList, "reject".toList, "yes".toList, "no".toList] chars with
  | some tok => some (String.mk tok)
  | none =>
    match searchKeywordId ["action".toList] chars with
    | some tok => some (String.mk tok)
    | none =>
      match searchHashId chars with
      | some tok => some (String.mk tok)
      | none => none

/-- Built-in approval tokens (hitl.py line 188). -/
def approval_words : List String :=
  ["✅", "yes", "y", "approve", "ok", "sí", "si", "confirm"]

/-- Built-in rejection tokens (hitl.py line 189; "no" appears twice in the
    source list). -/
def rejection_words : List String :=
  ["❌", "no", "n", "reject", "cancel", "no"]

/-- `HITLManager._check_approval_patterns` (hitl.py lines 173-196):
    substring containment against `message.lower().strip()`, checking
    operator-configured auto-approve patterns, then auto-reject patterns,
    then the built-in approval words, then the built-in rejection words. -/
def HITLState.check_approval_patterns (h : HITLState) (message : String) :
    Option String :=
  let message_lower := strTrim (strLower message)
  if h.auto_approve_patterns.any
      (fun p => containsSub message_lower (strLower p)) then some "approve"
  else if h.auto_reject_patterns.any
      (fun p => containsSub message_lower (strLower p)) then some "reject"
  else if approval_words.any (fun w => containsSub message_lower w) then
    some "approve"
  else if rejection_words.any (fun w => containsSub message_lower w) then
    some "reject"
  else none

/-- `HITLManager._get_most_recent_pending_action` (hitl.py lines 198-210):
    among stored actions with status "pending" and not expired, the one with
    the maximal creation time (Python `max` keeps the first maximum). -/
def HITLState.most_recent_pending (h : HITLState) (now : Int) :
    Option PendingAction :=
  if h.pending_actions.isEmpty then none
  else
    match h.pending_actions.filter
        (fun a => a.status == "pending" && !(a.is_expired now)) with
    | [] => none
    | x :: xs =>
      some (xs.foldl (fun best a =>
        if a.created_at > best.created_at then a else best) x)

/-- The result dictionary produced by `_handle_action_response` /
    `process_user_response` (hitl.py lines 212-246); absent keys are `none`. -/
structure HitlResult where
  success : Bool
  error : Option String
  action_id : Option String
  status : Option String
  action_type : Option String
  data : Option String
deriving Repr, DecidableEq

/-- A failure dictionary `{"success": False, "error": e}`. -/
def hitlFailure (e : String) : HitlResult :=
  { success := false, error := some e, action_id := none, status := none,
    action_type := none, data := none }

/-- Replace the action stored under `id` (dict assignment by key). -/
def updateAction (l : List PendingAction) (id : String) (a' : PendingAction) :
    List PendingAction :=
  l.map (fun a => if a.id == id then a' else a)

/-- `HITLManager._handle_action_response` (hitl.py lines 212-246): look up
    the action, fail if missing or expired, classify the message, and apply
    `approve` / `reject` accordingly. -/
def HITLState.handle_action_response (h : HITLState) (now : Int)
    (action_id message : String) : HitlResult × HITLState :=
  match h.get_pending_action action_id with
  | none => (hitlFailure "Action not found", h)
  | some action =>
    if action.is_expired now then (hitlFailure "Action has expired", h)
    else
      match h.check_approval_patterns message with
      | some "approve" =>
        let (a', ok) := action.approve now (some message)
        if ok then
          ({ success := true, error := none, action_id := some action_id,
             status := some "approved", action_type := some action.action_type,
             data := some action.data },
           { h with pending_actions := updateAction h.pending_actions action_id a' })
        else (hitlFailure "Could not determine approval status", h)
      | some "reject" =>
        let (a', ok) := action.reject now (some message)
        if ok then
          ({ success := true, error := none, action_id := some action_id,
             status := some "rejected", action_type := some action.action_type,
             data := none },
           { h with pending_actions := updateAction h.pending_actions action_id a' })
        else (hitlFailure "Could not determine approval status", h)
      | _ => (hitlFailure "Could not determine approval status", h)

/-- `HITLManager.process_user_response` (hitl.py lines 130-154): explicit id
    reference first, otherwise an approval/rejection-classified message is
    routed to the most recent pending action; `none` means "not an
    approval-related message". -/
def HITLState.process_user_response (h : HITLState) (now : Int)
    (message _from_phone : String) : Option HitlResult × HITLState :=
  match extract_action_id message with
  | some action_id =>
    let (r, h') := h.handle_action_response now action_id message
    (some r, h')
  | none =>
    match h.check_approval_patterns message with
    | some _ =>
      match h.most_recent_pending now with
      | some recent =>
        let (r, h') := h.handle_action_response now recent.id message
        (some r, h')
      | none => (none, h)
    | none => (none, h)

/-- The parsed-message dictionary produced by
    `WhatsAppIntegration.parse_incoming_message` (whatsapp.py lines 139-188).
    The dictionary carries exactly the keys set there; in particular it has
    no "fromMe" and no "event_type" key, so the router lookups
    `message_data.get("fromMe", False)` and
    `message_data.get("event_type", "")` always yield their defaults. -/
structure MessageData where
  message_id : Option String
  from_number : String
  to_number : String
  body : String
  msg_type : String
  is_from_me : Bool
  is_to_ultramsg : Bool
deriving Repr, DecidableEq

/-- The inner message dictionary of an UltraMsg webhook call (the fields the
    parser reads). -/
structure WebhookMsg where
  id : Option String
  from_number : String
  to_number : String
  body : String
  msg_type : String
deriving Repr, DecidableEq

/-- `parse_incoming_message` (whatsapp.py lines 139-188):
    `is_from_me` is `to_number == self.my_phone_number` and
    `is_to_ultramsg` is `to_number == "5664087506"`. -/
def parse_incoming_message (my_phone_number : String) (w : WebhookMsg) :
    MessageData :=
  { message_id := w.id
    from_number := w.from_number
    to_number := w.to_number
    body := w.body
    msg_type := w.msg_type
    is_from_me := w.to_number == my_phone_number
    is_to_ultramsg := w.to_number == "5664087506" }

/-- Mutable state of `MessageRouter` (router.py lines 45-51) together with
    the owned `HITLManager`.  `recent_messages` maps phone → recent outbound
    bodies, `processed_messages` is the processed-id set,
    `last_response_time` the per-phone cooldown ledger. -/
structure RouterState where
  hitl : HITLState
  recent_messages : List (String × List String)
  processed_messages : List String
  last_response_time : List (String × Int)
  emergency_stop : Bool
deriving Repr, DecidableEq

/-- `self.max_recent_messages = 5` (router.py line 47). -/
def max_recent_messages : Nat := 5

/-- `self.response_cooldown = 5` seconds (router.py line 50). -/
def response_cooldown : Int := 5

/-- Acknowledgment tokens skipped by the router (router.py line 153). -/
def ack_words : List String := ["sent", "delivered", "read", "ok", "true"]

/-- Canonical assistant-response fragments (router.py lines 158-164). -/
def assistant_responses : List String :=
  ["¡claro! puedo platicar contigo sobre cualquier tema",
   "puedo platicar contigo sobre cualquier tema",
   "lo siento, estoy teniendo problemas para procesar tu mensaje",
   "entiendo que dijiste",
   "estoy aquí para ayudarte"]

/-- An outbound WhatsApp send issued through
    `WhatsAppIntegration.send_message`. -/
structure Send where
  to_phone : String
  body : String
deriving Repr, DecidableEq

/-- The dictionary returned by a router entry point: either a
    `{"status": ..., "message": ...}` dictionary, or the result dictionary of
    a `send_message` call that the handler returns directly (those carry a
    "success" key and no "status" key). -/
inductive RouterResult where
  | statusResult (status : String) (message : String)
  | sendResult (to_phone : String) (body : String)
deriving Repr, DecidableEq

/-- The "status" key of a router result (`none` for returned send results,
    whose dictionaries have no "status" key). -/
def RouterResult.statusTag : RouterResult → Option String
  | .statusResult s _ => some s
  | .sendResult _ _ => none

/-- Configuration and external collaborators of the router that are outside
    the modelled core: the operator phone number (environment variable
    `MY_PHONE_NUMBER`), whether WhatsApp / OpenAI are configured, the
    generative backends (opaque response functions / texts), and the error
    strings produced by Python exceptions in the unreachable email/calendar
    executors. -/
structure Config where
  my_phone_number : String
  whatsapp_configured : Bool
  ai_configured : Bool
  ai_response : String → String → String
  conversation_summary : String
  time_text : String
  gmail_missing_error : String
  calendar_exec_error : String

/-- The `/status` reply body (router.py lines 743-766); the dynamic part is
    the pending-action count `len(self.pending_actions)`. -/
def status_text (cfg : Config) (st : RouterState) : String :=
  "🤖 Estado del Sistema\n\n" ++
  "📱 WhatsApp: " ++ (if cfg.whatsapp_configured then "✅" else "❌") ++ "\n" ++
  "📧 Gmail: ❌ (Deshabilitado)\n" ++
  "📅 Calendar: ❌ (Deshabilitado)\n" ++
  "🤖 AI: " ++ (if cfg.ai_configured then "✅" else "❌") ++ "\n" ++
  "📬 Auto-emails: ❌ (Deshabilitado)\n" ++
  "⏳ Acciones Pendientes: " ++ toString st.hitl.pending_actions.length ++ "\n"

/-- The `/help` reply body (router.py lines 838-851). -/
def help_text : String :=
  "🤖 Asistente de WhatsApp - Ayuda\n\nComandos disponibles:\n" ++
  "/status - Verificar estado del sistema\n/help - Mostrar esta ayuda\n" ++
  "/clear - Limpiar historial de conversación\n" ++
  "/personality - Ver personalidad de la IA\n" ++
  "/summary - Resumen de la conversación\n" ++
  "/stop - Detener asistente (emergencia)\n/start - Activar asistente\n\n" ++
  "IMPORTANTE: Solo responde a comandos que empiecen con /\n" ++
  "No responde automáticamente a mensajes normales.\n"

/-- The `/personality` reply body (router.py lines 870-882); the traits are
    the fixed defaults set in `ConversationAI.__init__`. -/
def personality_text : String :=
  "🤖 Mi Personalidad:\n\n😊 Tono: friendly\n📝 Formalidad: casual\n" ++
  "😄 Humor: light\n🌍 Idioma: spanish\n📏 Longitud: medium\n\n" ++
  "¿Te gustaría que cambie algo? ¡Dímelo!"

/-- The `/stop` reply body (router.py lines 904-911). -/
def stop_text : String :=
  "🚨 ASISTENTE DETENIDO\n\nEl asistente ha sido detenido para prevenir " ++
  "inundación de mensajes. Usa /start para reactivarlo."

/-- The `/start` reply body (router.py lines 919-926). -/
def start_text : String :=
  "✅ ASISTENTE ACTIVADO\n\nEl asistente está funcionando nuevamente. " ++
  "Solo responde a comandos que empiecen con /"

/-- `MessageRouter._handle_command` (router.py lines 250-280).  The email,
    calendar and auto-email commands are commented out in the source.
    `/stop` sets and `/start` clears the emergency-stop flag; each handler
    returns the result of the `send_message` call it issues. -/
def handle_command (cfg : Config) (st : RouterState) (command from_phone : String) :
    RouterResult × RouterState × List Send :=
  let command := strTrim (strLower command)
  if command = "/status" then
    (RouterResult.sendResult from_phone (status_text cfg st), st, [⟨from_phone, status_text cfg st⟩])
  else if command = "/help" then
    (RouterResult.sendResult from_phone help_text, st, [⟨from_phone, help_text⟩])
  else if command = "/clear" then
    (RouterResult.sendResult from_phone "🧹 ¡Conversación limpiada! Empezamos de nuevo.",
     st, [⟨from_phone, "🧹 ¡Conversación limpiada! Empezamos de nuevo."⟩])
  else if command = "/personality" then
    (RouterResult.sendResult from_phone personality_text, st, [⟨from_phone, personality_text⟩])
  else if command = "/summary" then
    (RouterResult.sendResult from_phone cfg.conversation_summary, st,
     [⟨from_phone, cfg.conversation_summary⟩])
  else if command = "/stop" then
    ({ st with emergency_stop := true } |> fun st' =>
      (RouterResult.sendResult from_phone stop_text, st', [⟨from_phone, stop_text⟩]))
  else if command = "/start" then
    ({ st with emergency_stop := false } |> fun st' =>
      (RouterResult.sendResult from_phone start_text, st', [⟨from_phone, start_text⟩]))
  else
    (RouterResult.sendResult from_phone "Unknown command. Use /help for available commands.",
     st, [⟨from_phone, "Unknown command. Use /help for available commands."⟩])

/-- `MessageRouter._execute_approved_action` (router.py lines 980-996) and
    the two executors it dispatches to.  `self.gmail` and `self.calendar`
    are never assigned (their assignments are commented out in `__init__`),
    so `_execute_email_reply` raises `AttributeError` at the send call and
    its handler reports the error to the operator and returns status
    "error"; `_execute_calendar_event` raises before any send and returns
    status "error" with no send.  The Python exception texts are opaque
    configuration here. -/
def execute_approved_action (cfg : Config) (st : RouterState) (r : HitlResult) :
    RouterResult × RouterState × List Send :=
  match r.action_type with
  | some "email_reply" =>
    (RouterResult.statusResult "error" cfg.gmail_missing_error, st,
     [⟨cfg.my_phone_number,
       "❌ Error al procesar la respuesta: " ++ cfg.gmail_missing_error⟩])
  | some "calendar_event" =>
    (RouterResult.statusResult "error" cfg.calendar_exec_error, st, [])
  | _ => (RouterResult.statusResult "error" "Unknown action type", st, [])

/-- Word lists of `_handle_simple_conversation` (router.py lines 798-834). -/
def greeting_words : List String :=
  ["hello", "hi", "hey", "good morning", "good afternoon", "good evening",
   "hola", "buenos días", "buenas tardes", "buenas noches"]

def help_request_words : List String :=
  ["help", "what can you do", "what do you do", "ayuda", "qué puedes hacer",
   "qué haces"]

def status_question_words : List String :=
  ["how are you", "status", "working", "cómo estás", "estado", "funcionando"]

def time_question_words : List String :=
  ["time", "date", "today", "tomorrow", "hora", "fecha", "hoy", "mañana"]

def thanks_words : List String :=
  ["thank", "thanks", "appreciate", "gracias", "agradezco"]

/-- `MessageRouter._handle_simple_conversation` (router.py lines 798-834):
    the pattern-matching fallback when the conversation AI is not
    configured.  The time/date branch formats `datetime.now()`, modelled by
    the opaque `cfg.time_text`. -/
def handle_simple_conversation (cfg : Config) (message : String) : String :=
  let message_lower := strTrim (strLower message)
  if greeting_words.any (fun w => containsSub message_lower w) then
    "¡Hola! 👋 Soy tu asistente de WhatsApp. ¿En qué te puedo ayudar? " ++
    "Puedes preguntarme sobre tus correos, calendario o simplemente platicar."
  else if help_request_words.any (fun w => containsSub message_lower w) then
    "Te puedo ayudar con:\n📧 Tus correos\n📅 Tu calendario\n" ++
    "💬 Platicar contigo\n\n¡Usa /help para ver todos los comandos!"
  else if status_question_words.any (fun w => containsSub message_lower w) then
    "¡Todo súper bien! 🤖 Todo está funcionando perfecto. ¿Qué quieres hacer?"
  else if time_question_words.any (fun w => containsSub message_lower w) then
    cfg.time_text
  else if thanks_words.any (fun w => containsSub message_lower w) then
    "¡De nada! 😊 ¿Necesitas algo más?"
  else
    "Entiendo que dijiste: \x27" ++ message ++ "\x27\n\n¡Estoy aquí para " ++
    "ayudarte! Puedo platicar contigo y responder preguntas. " ++
    "Usa /help para ver los comandos disponibles."

/-- `MessageRouter._handle_ai_conversation` (router.py lines 775-796):
    generate a reply (AI backend when configured, simple patterns otherwise)
    and send it. -/
def handle_ai_conversation (cfg : Config) (st : RouterState)
    (message from_phone : String) : RouterResult × RouterState × List Send :=
  let response :=
    if cfg.ai_configured then cfg.ai_response message from_phone
    else handle_simple_conversation cfg message
  (RouterResult.sendResult from_phone response, st, [⟨from_phone, response⟩])

/-- `MessageRouter._is_real_user_message` (router.py lines 934-960).  The
    parsed dictionary has no "fromMe"/"event_type" keys, so those two checks
    reduce to `is_from_me` and a vacuous test. -/
def is_real_user_message (md : MessageData) : Bool :=
  if md.is_from_me then false
  else
    let message := strLower md.body
    if ack_words.any (fun w => containsSub message w) then false
    else if !(["5215664087506@c.us", "5664087506"].contains md.from_number) then
      false
    else if strIsEmpty message || strLen (strTrim message) < 2 then false
    else true

/-- `message_data.get("message_id") or message_data.get("id")` (router.py
    line 176): the parsed dictionary has no "id" key, and through Python
    `or` an empty-string id is falsy, so the fallback yields `None`. -/
def effective_message_id (md : MessageData) : Option String :=
  match md.message_id with
  | some s => if s = "" then none else some s
  | none => none

/-- Response-phone selection (router.py lines 199-208). -/
def response_phone_for (md : MessageData) : String :=
  if md.is_to_ultramsg then "5530386114"
  else if md.from_number = "5664087506" then md.to_number
  else md.from_number

/-- The router's own approval/rejection marker tokens (router.py line 223;
    "no" appears twice in the source list). -/
def router_hitl_words : List String :=
  ["✅", "❌", "sí", "no", "yes", "no", "aprobar", "rechazar"]

/-- Eviction of the processed-id set (router.py lines 184-186):
    `set(list(self.processed_messages)[-50:])` once the set holds more than
    100 ids; iteration order is modelled as insertion order. -/
def evict_processed (l : List String) : List String :=
  if l.length > 100 then l.drop (l.length - 50) else l

/-- `_handle_user_message`, lines 215-242: the stage after the HITL
    resolution attempt — slash commands, the pending-action block (which
    consults the effective, unfiltered `get_pending_actions`), the
    real-user check, and the AI conversation fallthrough. -/
def after_hitl_stage (cfg : Config) (st : RouterState) (md : MessageData)
    (message response_phone : String) : RouterResult × RouterState × List Send :=
  if strStarts message "/" then handle_command cfg st message response_phone
  else
    let pending := st.hitl.get_pending_actions none
    if !pending.isEmpty then
      if router_hitl_words.any (fun w => containsSub (strLower message) w) then
        (RouterResult.statusResult "hitl_processing" "Processing HITL response", st, [])
      else
        (RouterResult.statusResult "pending_actions" "Please respond to pending actions first",
         st, [])
    else if !(is_real_user_message md) then
      (RouterResult.statusResult "skipped" "Not a real user message", st, [])
    else if strStarts message "/" then handle_command cfg st message response_phone
    else handle_ai_conversation cfg st message response_phone

/-- `_handle_user_message`, lines 199-242: everything after the cooldown
    ledger has been charged — response-phone selection, the HITL resolution
    attempt (executing the resolved action on success), then
    `after_hitl_stage`. -/
def after_cooldown (cfg : Config) (now : Int) (st : RouterState)
    (md : MessageData) (message : String) : RouterResult × RouterState × List Send :=
  let response_phone := response_phone_for md
  let (hitl_result, hitl') := st.hitl.process_user_response now message md.from_number
  let st := { st with hitl := hitl' }
  match hitl_result with
  | some r =>
    if r.success then execute_approved_action cfg st r
    else after_hitl_stage cfg st md message response_phone
  | none => after_hitl_stage cfg st md message response_phone

/-- `_handle_user_message`, lines 188-197: the per-sender cooldown.  The
    ledger is only charged when the check passes (a rate-limited event does
    not move the timestamp). -/
def cooldown_stage (cfg : Config) (now : Int) (st : RouterState)
    (md : MessageData) (message : String) : RouterResult × RouterState × List Send :=
  let charged :=
    { st with last_response_time := setAssoc st.last_response_time md.from_number now }
  match lookupAssoc st.last_response_time md.from_number with
  | some last =>
    if now - last < response_cooldown then
      (RouterResult.statusResult "rate_limited" "Too soon since last response", st, [])
    else after_cooldown cfg now charged md message
  | none => after_cooldown cfg now charged md message

/-- `MessageRouter._handle_user_message` (router.py lines 128-242).  The
    webhook-event-type skip (lines 169-173) is unreachable because the
    parsed dictionary never carries an "event_type" key, and
    `message_data.get("fromMe", False)` is always `False`, so that skip
    reduces to `is_from_me`. -/
def handle_user_message (cfg : Config) (now : Int) (st : RouterState)
    (md : MessageData) : RouterResult × RouterState × List Send :=
  if st.emergency_stop then
    (RouterResult.statusResult "emergency_stop" "Assistant disabled due to flooding", st, [])
  else
    let message := strTrim md.body
    if strLen message < 2 then (RouterResult.statusResult "skipped" "Empty message", st, [])
    else if md.is_from_me then
      (RouterResult.statusResult "skipped" "Message from assistant", st, [])
    else if ack_words.any (fun w => containsSub (strLower message) w) then
      (RouterResult.statusResult "skipped" "Acknowledgment message", st, [])
    else if assistant_responses.any (fun r => containsSub (strLower message) r) then
      (RouterResult.statusResult "skipped" "Contains assistant response", st, [])
    else
      match effective_message_id md with
      | some mid =>
        if st.processed_messages.contains mid then
          (RouterResult.statusResult "skipped" "Already processed", st, [])
        else
          let st' :=
            { st with processed_messages :=
                evict_processed (st.processed_messages ++ [mid]) }
          cooldown_stage cfg now st' md message
      | none => cooldown_stage cfg now st md message

/-- `MessageRouter._handle_external_message` (router.py lines 244-248). -/
def handle_external_message (st : RouterState) :
    RouterResult × RouterState × List Send :=
  (RouterResult.statusResult "logged" "External message logged", st, [])

/-- `MessageRouter.process_message` (router.py lines 102-126), the Dispatch
    entry point: parse, then route to the user-message or external-message
    handler depending on `is_from_me` / `is_to_ultramsg`. -/
def process_message (cfg : Config) (now : Int) (st : RouterState)
    (w : WebhookMsg) : RouterResult × RouterState × List Send :=
  let md := parse_incoming_message cfg.my_phone_number w
  if md.is_from_me || md.is_to_ultramsg then handle_user_message cfg now st md
  else handle_external_message st

/-- `MessageRouter._is_duplicate_message` (router.py lines 1108-1125): the
    recent-outbound cache.  A cached body is reported as duplicate and not
    re-appended; a new body is appended, keeping only the last
    `max_recent_messages` entries. -/
def is_duplicate_message (st : RouterState) (phone message : String) :
    Bool × RouterState :=
  let msgs := (lookupAssoc st.recent_messages phone).getD []
  if msgs.contains message then
    (true, { st with recent_messages := setAssoc st.recent_messages phone msgs })
  else
    let msgs := msgs ++ [message]
    let msgs :=
      if msgs.length > max_recent_messages then
        msgs.drop (msgs.length - max_recent_messages)
      else msgs
    (false, { st with recent_messages := setAssoc st.recent_messages phone msgs })

/-! ### Concrete fixtures used to evaluate the model -/

/-- A concrete configuration: the operator number from the source's hardcoded
    operator identities, WhatsApp configured, conversation AI not configured
    (no API key), opaque collaborator texts. -/
def sampleCfg : Config :=
  { my_phone_number := "5215664087506@c.us"
    whatsapp_configured := true
    ai_configured := false
    ai_response := fun _ _ => ""
    conversation_summary := ""
    time_text := ""
    gmail_missing_error := "MessageRouter object has no attribute gmail"
    calendar_exec_error := "MessageRouter object has no attribute calendar" }

/-- Fresh `HITLManager` state (no stored actions, no configured patterns). -/
def emptyHitl : HITLState :=
  { pending_actions := [], auto_approve_patterns := [], auto_reject_patterns := [] }

/-- Fresh `MessageRouter` state (router.py `__init__`). -/
def state0 : RouterState :=
  { hitl := emptyHitl, recent_messages := [], processed_messages := [],
    last_response_time := [], emergency_stop := false }

/-- An inbound operator message: sent from the operator's phone to the
    UltraMsg number (so `is_to_ultramsg` is true and the router treats it as
    user traffic). -/
def operatorMsg (body : String) (idv : Option String) : MessageData :=
  parse_incoming_message sampleCfg.my_phone_number
    ⟨idv, "5215664087506@c.us", "5664087506", body, "chat"⟩

/-- A freshly created 30-minute pending action (fixture for the approval
    round-trip). -/
def c2Action : PendingAction :=
  PendingAction.make "aaaa1111-2222" "email_reply" "payload" 0 30

/-- Store holding just `c2Action`. -/
def c2Hitl : HITLState := { emptyHitl with pending_actions := [c2Action] }

/-- An already-resolved (approved, unexpired) action (fixture for the
    pending-actions gate). -/
def resolvedAction : PendingAction :=
  { id := "bbbb1111-2222", action_type := "email_reply", data := "d",
    created_at := 0, expires_at := 1800, status := "approved",
    user_response := some "yes", response_at := some 5 }

/-- Router state whose store holds only the resolved action. -/
def c7State : RouterState :=
  { state0 with hitl := { emptyHitl with pending_actions := [resolvedAction] } }

/-- Router state whose cooldown ledger was charged for the operator at t=0. -/
def c6State : RouterState :=
  { state0 with last_response_time := [("5215664087506@c.us", 0)] }

/-- The event whose redelivery behaviour is studied for the processed-id
    set: operator message "hola" with provider id "m0". -/
def c10Event : MessageData := operatorMsg "hola" (some "m0")

/-- Filler events with fresh provider ids "f0", "f1", ... -/
def c10Filler (i : Nat) : MessageData := operatorMsg "hola" (some ("f" ++ toString i))

/-- State after a warm-up dispatch at t=0 that charges the cooldown ledger
    for the operator number (the warm-up carries no provider id). -/
def c10Warm : RouterState :=
  (handle_user_message sampleCfg 0 state0 (operatorMsg "hola" none)).2.1

/-- First dispatch of `c10Event` at t=1: within the 5s cooldown window. -/
def c10First : RouterResult × RouterState × List Send :=
  handle_user_message sampleCfg 1 c10Warm c10Event

/-- State after 100 further (rate-limited) dispatches with fresh ids, enough
    to overflow the 100-entry processed-id set and trigger the halving
    eviction. -/
def c10Flooded : RouterState :=
  (List.range 100).foldl
    (fun s i => (handle_user_message sampleCfg 1 s (c10Filler i)).2.1) c10First.2.1

/-- Fresh router state with the emergency-stop flag raised (the state left
    behind by a processed `/stop` command). -/
def c1State : RouterState := { state0 with emergency_stop := true }

/-- First resolution of `c2Action` at t=10 with reply "yes". -/
def c2FirstResolution : HitlResult × HITLState :=
  c2Hitl.handle_action_response 10 "aaaa1111-2222" "yes"

/-- Second resolution attempt addressed to the same action id at t=20. -/
def c2SecondResolution : HitlResult × HITLState :=
  c2FirstResolution.2.handle_action_response 20 "aaaa1111-2222" "yes"

/-- A webhook message exchanged between two third-party numbers: neither
    addressed to the operator identity nor to the UltraMsg number. -/
def externalMsg : WebhookMsg :=
  ⟨some "x1", "5215550001", "5215550002", "hello there", "chat"⟩

/-- The `/stop` command carrying provider id "m1". -/
def c5StopMsg : MessageData := operatorMsg "/stop" (some "m1")

/-- State after the `/stop` command has been dispatched once. -/
def c5AfterStop : RouterState :=
  (handle_user_message sampleCfg 0 state0 c5StopMsg).2.1

/-- State whose processed-id set already holds the id "m9". -/
def c5SeenState : RouterState := { state0 with processed_messages := ["m9"] }

/-- State whose recent-outbound cache for "p1" is at capacity (5 bodies). -/
def c8CacheState : RouterState :=
  { state0 with recent_messages := [("p1", ["a", "b", "c", "d", "e"])] }

/-- A pending, unexpired action for the intent-classification round trip. -/
def c9Action : PendingAction :=
  PendingAction.make "cccc1111-2222" "calendar_event" "d" 0 30

/-- Store holding just `c9Action`. -/
def c9Hitl : HITLState := { emptyHitl with pending_actions := [c9Action] }

/-! ### Helper lemmas -/

theorem find?_append_none {α : Type} (p : α → Bool) (l₁ l₂ : List α)
    (h : l₁.find? p = none) : (l₁ ++ l₂).find? p = l₂.find? p := by
  induction l₁ with
  | nil => simp
  | cons a t ih =>
    simp only [List.cons_append, List.find?] at h ⊢
    cases hpa : p a with
    | true => simp [hpa] at h
    | false =>
      simp only [hpa] at h ⊢
      exact ih h

theorem lookupAssoc_setAssoc_self {α : Type} (l : List (String × α)) (k : String)
    (v : α) : lookupAssoc (setAssoc l k v) k = some v := by
  unfold setAssoc lookupAssoc
  split
  case isTrue h =>
    induction l with
    | nil => simp at h
    | cons p t ih =>
      simp only [List.map_cons, List.find?] at h ⊢
      cases hp : (p.1 == k) with
      | true => simp
      | false =>
        simp only [Bool.false_eq_true, if_false, hp]
        simp only [hp] at h
        exact ih h
  case isFalse h =>
    have hnone : l.find? (fun p => p.1 == k) = none := by
      cases hf : l.find? (fun p => p.1 == k) with
      | none => rfl
      | some x => exact absurd (by simp [hf]) h
    rw [find?_append_none _ _ _ hnone]
    simp [List.find?]

theorem find?_updateAction (l : List PendingAction) (id : String) (a' : PendingAction)
    (hid : (a'.id == id) = true) :
    (updateAction l id a').find? (fun a => a.id == id) =
      (l.find? (fun a => a.id == id)).map (fun _ => a') := by
  induction l with
  | nil => simp [updateAction]
  | cons b t ih =>
    simp only [updateAction, List.map_cons, List.find?] at ih ⊢
    cases hb : (b.id == id) with
    | true => simp [hid]
    | false =>
      simp only [Bool.false_eq_true, if_false, hb]
      exact ih

theorem handle_action_response_cases (h : HITLState) (now : Int) (aid m : String) :
    (h.handle_action_response now aid m).2 = h ∨
      (h.handle_action_response now aid m).1.success = true := by
  unfold HITLState.handle_action_response
  cases hga : h.get_pending_action aid with
  | none => left; rfl
  | some action =>
    dsimp only
    by_cases hexp : action.is_expired now = true
    · left; simp [hexp]
    · rw [if_neg hexp]
      cases hpat : h.check_approval_patterns m with
      | none => left; rfl
      | some s =>
        rcases happ : action.approve now (some m) with ⟨a1, ok1⟩
        rcases hrej : action.reject now (some m) with ⟨a2, ok2⟩
        cases ok1 <;> cases ok2 <;>
          split <;> simp_all

theorem process_user_response_not_success (h : HITLState) (now : Int) (m p : String)
    (hs : ∀ r, (h.process_user_response now m p).1 = some r → r.success = false) :
    (h.process_user_response now m p).2 = h := by
  unfold HITLState.process_user_response at hs ⊢
  cases hex : extract_action_id m with
  | some aid =>
    simp only [hex] at hs ⊢
    have hcase := handle_action_response_cases h now aid m
    rcases hhar : h.handle_action_response now aid m with ⟨r, h'⟩
    simp only [hhar] at hs hcase ⊢
    rcases hcase with heq | hsucc
    · exact heq
    · exact absurd (hs r rfl) (by simp [hsucc])
  | none =>
    simp only [hex] at hs ⊢
    cases hpat : h.check_approval_patterns m with
    | none => rfl
    | some s =>
      simp only [hpat] at hs ⊢
      cases hmr : h.most_recent_pending now with
      | none => rfl
      | some recent =>
        simp only [hmr] at hs ⊢
        have hcase := handle_action_response_cases h now recent.id m
        rcases hhar : h.handle_action_response now recent.id m with ⟨r, h'⟩
        simp only [hhar] at hs hcase ⊢
        rcases hcase with heq | hsucc
        · exact heq
        · exact absurd (hs r rfl) (by simp [hsucc])

/-- On an unexpired action found under `aid`, a message classified as
    approval resolves the action: success dictionary plus in-place update of
    the stored action to its approved version. -/
theorem handle_action_response_approve (h : HITLState) (now : Int) (aid m : String)
    (a : PendingAction)
    (hget : h.get_pending_action aid = some a)
    (hexp : a.is_expired now = false)
    (hpat : h.check_approval_patterns m = some "approve") :
    h.handle_action_response now aid m =
      (⟨true, none, some aid, some "approved", some a.action_type, some a.data⟩,
       { h with pending_actions :=
           updateAction h.pending_actions aid (a.approve now (some m)).1 }) := by
  unfold HITLState.handle_action_response
  rw [hget]
  dsimp only
  rw [if_neg (by simp [hexp]), hpat]
  have happ : (a.approve now (some m)).2 = true := by
    unfold PendingAction.approve
    rw [if_neg (by simp [hexp])]
  rcases hpair : a.approve now (some m) with ⟨a1, ok1⟩
  rw [hpair] at happ
  dsimp only
  cases ok1 with
  | false => simp at happ
  | true => rfl

theorem handle_command_props (cfg : Config) (st : RouterState) (c p : String) :
    (handle_command cfg st c p).1.statusTag = none ∧
    (handle_command cfg st c p).2.1.last_response_time = st.last_response_time := by
  unfold handle_command
  dsimp only
  split_ifs <;> simp [RouterResult.statusTag]

theorem execute_approved_action_props (cfg : Config) (st : RouterState)
    (r : HitlResult) :
    (execute_approved_action cfg st r).1.statusTag = some "error" ∧
    (execute_approved_action cfg st r).2.1 = st := by
  unfold execute_approved_action
  split <;> simp [RouterResult.statusTag]

theorem after_hitl_stage_props (cfg : Config) (st : RouterState) (md : MessageData)
    (m rp : String) :
    (after_hitl_stage cfg st md m rp).1.statusTag ≠ some "rate_limited" ∧
    (after_hitl_stage cfg st md m rp).2.1.last_response_time =
      st.last_response_time := by
  unfold after_hitl_stage
  dsimp only
  split_ifs with h1 h2 h3 h4
  · have := handle_command_props cfg st m rp
    exact ⟨by simp [this.1], this.2⟩
  · simp [RouterResult.statusTag]
  · simp [RouterResult.statusTag]
  · simp [RouterResult.statusTag]
  · simp [handle_ai_conversation, RouterResult.statusTag]

theorem after_cooldown_props (cfg : Config) (now : Int) (st : RouterState)
    (md : MessageData) (m : String) :
    (after_cooldown cfg now st md m).1.statusTag ≠ some "rate_limited" ∧
    (after_cooldown cfg now st md m).2.1.last_response_time =
      st.last_response_time := by
  unfold after_cooldown
  rcases hpr : st.hitl.process_user_response now m md.from_number with ⟨hropt, hitl'⟩
  simp only [hpr]
  cases hropt with
  | some r =>
    dsimp only
    by_cases hs : r.success = true
    · rw [if_pos hs]
      have := execute_approved_action_props cfg { st with hitl := hitl' } r
      exact ⟨by simp [this.1], by rw [this.2]⟩
    · rw [if_neg hs]
      exact after_hitl_stage_props cfg _ md m _
  | none =>
    dsimp only
    exact after_hitl_stage_props cfg _ md m _

/-- Under the loop-guard pre-conditions (flag clear, body long enough, not
    self-originated, no acknowledgment / assistant-echo match, id unseen),
    `_handle_user_message` reaches the cooldown stage with the id recorded. -/
theorem handle_user_message_eq (cfg : Config) (now : Int) (st : RouterState)
    (md : MessageData)
    (hstop : st.emergency_stop = false)
    (hlen : ¬ strLen (strTrim md.body) < 2)
    (hfm : md.is_from_me = false)
    (hack : ack_words.any (fun w => containsSub (strLower (strTrim md.body)) w) = false)
    (hass : assistant_responses.any
      (fun r => containsSub (strLower (strTrim md.body)) r) = false)
    (hid : (effective_message_id md).all
      (fun mid => !(st.processed_messages.contains mid)) = true) :
    handle_user_message cfg now st md =
      cooldown_stage cfg now
        { st with processed_messages :=
            match effective_message_id md with
            | some mid => evict_processed (st.processed_messages ++ [mid])
            | none => st.processed_messages }
        md (strTrim md.body) := by
  unfold handle_user_message
  rw [if_neg (by simp [hstop])]
  dsimp only
  rw [if_neg hlen, if_neg (by simp [hfm]), if_neg (by simp [hack]),
      if_neg (by simp [hass])]
  cases hmid : effective_message_id md with
  | none => simp [hmid]
  | some mid =>
    simp only [hmid] at hid ⊢
    have hc : st.processed_messages.contains mid = false := by simpa using hid
    rw [if_neg (by simpa using hc)]

/-! ### Claims -/

/-- C1: the spec states that while the emergency-stop flag is set every
    non-control event is suppressed but the resume command `/start` is still
    recognized and clears the flag.  The code contradicts this: the
    emergency-stop check at router.py:131 precedes all command handling, so
    dispatching `/start` while the flag is set returns an `emergency_stop`
    outcome, leaves the flag set, and performs no send — even though the
    command handler `_start_assistant` (which would clear the flag, third
    conjunct) exists, and the code's own `/stop` reply instructs the
    operator to use `/start` to reactivate.  The flag can never be cleared
    through the message flow. -/
theorem c1_resume_command_suppressed_by_emergency_stop :
    handle_user_message sampleCfg 0 c1State (operatorMsg "/start" none) =
      (RouterResult.statusResult "emergency_stop" "Assistant disabled due to flooding",
       c1State, []) ∧
    c1State.emergency_stop = true ∧
    (handle_command sampleCfg c1State "/start" "5530386114").2.1.emergency_stop =
      false := by
  decide

/-- C2 counterexample: a second resolution attempt addressed to the same
    action id does NOT return failure — it succeeds again and changes state.
    After the first approval at t=10 (recorded `response_at = 10`), a second
    `_handle_action_response` on the same id at t=20 returns success and
    overwrites `response_at` to 20, because `PendingAction.approve` is
    guarded only by expiry, never by the current status. -/
theorem c2_second_resolution_attempt_succeeds :
    c2FirstResolution.1.success = true ∧
    (c2FirstResolution.2.get_pending_action "aaaa1111-2222").map
      (fun x => x.status) = some "approved" ∧
    (c2FirstResolution.2.get_pending_action "aaaa1111-2222").map
      (fun x => x.response_at) = some (some 10) ∧
    c2SecondResolution.1.success = true ∧
    (c2SecondResolution.2.get_pending_action "aaaa1111-2222").map
      (fun x => x.response_at) = some (some 20) := by
  decide

/-- C2 (amended): resolving an unexpired action via a matching approval
    token transitions its status to "approved" and returns success; a second
    `Approve` on the same still-unexpired action also returns success,
    leaving the status "approved" but overwriting the recorded reply and
    resolution time — `approve` is gated only on expiry, not on prior
    resolution. -/
theorem c2_approve_not_guarded_by_status (a : PendingAction) (now now' : Int)
    (r r' : Option String)
    (h1 : a.is_expired now = false) (h2 : a.is_expired now' = false) :
    (a.approve now r).2 = true ∧
    (a.approve now r).1.status = "approved" ∧
    ((a.approve now r).1.approve now' r').2 = true ∧
    ((a.approve now r).1.approve now' r').1.status = "approved" ∧
    ((a.approve now r).1.approve now' r').1.user_response = r' ∧
    ((a.approve now r).1.approve now' r').1.response_at = some now' := by
  have h1' : ¬ (now > a.expires_at) := by
    simpa [PendingAction.is_expired] using h1
  have h2' : ¬ (now' > a.expires_at) := by
    simpa [PendingAction.is_expired] using h2
  simp [PendingAction.approve, PendingAction.is_expired, h1', h2']

theorem c2_approve_not_guarded_by_status_witness :
    c2Action.is_expired 10 = false ∧
    ((c2Action.approve 10 (some "yes")).1.approve 20 (some "ok")).2 = true ∧
    ((c2Action.approve 10 (some "yes")).1.approve 20 (some "ok")).1.status =
      "approved" :=
  ⟨by decide,
   (c2_approve_not_guarded_by_status c2Action 10 20 (some "yes") (some "ok")
     (by decide) (by decide)).2.2.1,
   (c2_approve_not_guarded_by_status c2Action 10 20 (some "yes") (some "ok")
     (by decide) (by decide)).2.2.2.1⟩

/-- C3: once an action is expired, `approve` and `reject` return failure and
    leave the action completely unchanged (status, user_response and
    response_at included); moreover `expires_at` is fixed at creation
    (`created_at + ttl minutes`) and is never changed by `approve` or
    `reject`, expired or not. -/
theorem c3_expired_actions_frozen (a : PendingAction) (now : Int)
    (r : Option String) (h : a.is_expired now = true) :
    a.approve now r = (a, false) ∧ a.reject now r = (a, false) ∧
    (∀ (now' : Int) (r' : Option String),
       ((a.approve now' r').1).expires_at = a.expires_at ∧
       ((a.reject now' r').1).expires_at = a.expires_at) ∧
    (∀ (id ty d : String) (t ttl : Int),
       (PendingAction.make id ty d t ttl).expires_at = t + ttl * 60 ∧
       (PendingAction.make id ty d t ttl).created_at = t) := by
  refine ⟨?_, ?_, ?_, ?_⟩
  · unfold PendingAction.approve
    rw [if_pos h]
  · unfold PendingAction.reject
    rw [if_pos h]
  · intro now' r'
    refine ⟨?_, ?_⟩
    · unfold PendingAction.approve
      split <;> rfl
    · unfold PendingAction.reject
      split <;> rfl
  · intro id ty d t ttl
    exact ⟨rfl, rfl⟩

theorem c3_expired_actions_frozen_witness :
    c2Action.is_expired 999999 = true ∧
    c2Action.approve 999999 (some "yes") = (c2Action, false) ∧
    c2Action.reject 999999 (some "no") = (c2Action, false) :=
  ⟨by decide,
   (c3_expired_actions_frozen c2Action 999999 (some "yes") (by decide)).1,
   (c3_expired_actions_frozen c2Action 999999 (some "no") (by decide)).2.1⟩

/-- C4 counterexample: an event between two third-party numbers (so
    `is_from_me` and `is_to_ultramsg` both false) is dispatched to
    `_handle_external_message`, whose outcome status is "logged", not the
    "skipped" the claim states. -/
theorem c4_external_event_logged_not_skipped :
    (parse_incoming_message sampleCfg.my_phone_number externalMsg).is_from_me =
      false ∧
    (parse_incoming_message sampleCfg.my_phone_number externalMsg).is_to_ultramsg =
      false ∧
    (process_message sampleCfg 0 state0 externalMsg).1.statusTag = some "logged" ∧
    ¬ (process_message sampleCfg 0 state0 externalMsg).1.statusTag =
      some "skipped" := by
  decide

/-- C4 (amended): every inbound event that is not addressed to or from the
    configured operator identity yields a `logged` outcome ("External
    message logged"), with no outbound send and no state change. -/
theorem c4_external_event_logged (cfg : Config) (now : Int) (st : RouterState)
    (w : WebhookMsg)
    (h1 : (parse_incoming_message cfg.my_phone_number w).is_from_me = false)
    (h2 : (parse_incoming_message cfg.my_phone_number w).is_to_ultramsg = false) :
    process_message cfg now st w =
      (RouterResult.statusResult "logged" "External message logged", st, []) := by
  unfold process_message handle_external_message
  rw [if_neg (by simp [h1, h2])]

theorem c4_external_event_logged_witness :
    process_message sampleCfg 0 state0 externalMsg =
      (RouterResult.statusResult "logged" "External message logged", state0, []) :=
  c4_external_event_logged sampleCfg 0 state0 externalMsg (by decide) (by decide)

/-- C5 counterexample: the claim says a redelivered, already-processed
    message id always yields `skipped`.  When the first delivery was the
    `/stop` command, its processing sets the emergency-stop flag; the
    redelivery of the identical event (same id "m1") then returns
    `emergency_stop`, not `skipped` (still with no side effect). -/
theorem c5_stop_redelivery_yields_emergency_stop :
    c5AfterStop.processed_messages.contains "m1" = true ∧
    c5AfterStop.emergency_stop = true ∧
    (handle_user_message sampleCfg 1 c5AfterStop c5StopMsg).1.statusTag =
      some "emergency_stop" ∧
    ¬ (handle_user_message sampleCfg 1 c5AfterStop c5StopMsg).1.statusTag =
      some "skipped" := by
  decide

/-- C5 (amended): dispatching an event whose non-null message id is already
    in the processed-id set performs no side effect — no send and no state
    change — and returns `skipped`, unless the emergency-stop flag is set,
    in which case it returns `emergency_stop` (likewise with no side
    effect). -/
theorem c5_redelivery_has_no_side_effect (cfg : Config) (now : Int)
    (st : RouterState) (md : MessageData) (mid : String)
    (hmid : effective_message_id md = some mid)
    (hmem : st.processed_messages.contains mid = true) :
    (handle_user_message cfg now st md).2.1 = st ∧
    (handle_user_message cfg now st md).2.2 = [] ∧
    (handle_user_message cfg now st md).1.statusTag =
      some (if st.emergency_stop then "emergency_stop" else "skipped") := by
  unfold handle_user_message
  by_cases hstop : st.emergency_stop = true
  · rw [if_pos hstop]
    simp [RouterResult.statusTag, hstop]
  · rw [if_neg hstop]
    have hsb : st.emergency_stop = false := by simpa using hstop
    dsimp only
    by_cases hlen : strLen (strTrim md.body) < 2
    · rw [if_pos hlen]
      simp [RouterResult.statusTag, hsb]
    · rw [if_neg hlen]
      by_cases hfm : md.is_from_me = true
      · rw [if_pos hfm]
        simp [RouterResult.statusTag, hsb]
      · rw [if_neg hfm]
        by_cases hack : (ack_words.any
            (fun w => containsSub (strLower (strTrim md.body)) w)) = true
        · rw [if_pos hack]
          simp [RouterResult.statusTag, hsb]
        · rw [if_neg hack]
          by_cases hass : (assistant_responses.any
              (fun r => containsSub (strLower (strTrim md.body)) r)) = true
          · rw [if_pos hass]
            simp [RouterResult.statusTag, hsb]
          · rw [if_neg hass]
            rw [hmid]
            dsimp only
            rw [if_pos (by simpa using hmem)]
            simp [RouterResult.statusTag, hsb]

theorem c5_redelivery_has_no_side_effect_witness :
    (handle_user_message sampleCfg 0 c5SeenState (operatorMsg "hola" (some "m9"))).2.1 =
      c5SeenState ∧
    (handle_user_message sampleCfg 0 c5SeenState (operatorMsg "hola" (some "m9"))).2.2 =
      [] ∧
    (handle_user_message sampleCfg 0 c5SeenState
      (operatorMsg "hola" (some "m9"))).1.statusTag = some "skipped" := by
  have h := c5_redelivery_has_no_side_effect sampleCfg 0 c5SeenState
    (operatorMsg "hola" (some "m9")) "m9" (by decide) (by decide)
  exact ⟨h.1, h.2.1, h.2.2.trans (by decide)⟩

/-- C6: with the per-sender cooldown ledger holding timestamp t for the
    sender and an event that passes all loop-guard checks, a dispatch at
    time `now` with `now - t < 5` (the configured window) yields
    `rate_limited` with no send and without moving the ledger entry
    (check-then-update acts as one operation — a failed check does not
    update); with `now - t ≥ 5` the event is never rate-limited and the
    ledger entry is atomically moved to `now` before further handling. -/
theorem c6_cooldown_window_semantics (cfg : Config) (now t : Int)
    (st : RouterState) (md : MessageData)
    (hstop : st.emergency_stop = false)
    (hlen : ¬ strLen (strTrim md.body) < 2)
    (hfm : md.is_from_me = false)
    (hack : ack_words.any (fun w => containsSub (strLower (strTrim md.body)) w) = false)
    (hass : assistant_responses.any
      (fun r => containsSub (strLower (strTrim md.body)) r) = false)
    (hid : (effective_message_id md).all
      (fun mid => !(st.processed_messages.contains mid)) = true)
    (hled : lookupAssoc st.last_response_time md.from_number = some t) :
    (now - t < response_cooldown →
       (handle_user_message cfg now st md).1 =
         RouterResult.statusResult "rate_limited" "Too soon since last response" ∧
       (handle_user_message cfg now st md).2.1.last_response_time =
         st.last_response_time ∧
       (handle_user_message cfg now st md).2.2 = []) ∧
    (¬ now - t < response_cooldown →
       (handle_user_message cfg now st md).1.statusTag ≠ some "rate_limited" ∧
       lookupAssoc (handle_user_message cfg now st md).2.1.last_response_time
         md.from_number = some now) := by
  rw [handle_user_message_eq cfg now st md hstop hlen hfm hack hass hid]
  unfold cooldown_stage
  dsimp only
  rw [hled]
  dsimp only
  constructor
  · intro hlt
    rw [if_pos hlt]
    exact ⟨rfl, rfl, rfl⟩
  · intro hge
    rw [if_neg hge]
    have hp := after_cooldown_props cfg now
      { st with
          processed_messages :=
            match effective_message_id md with
            | some mid => evict_processed (st.processed_messages ++ [mid])
            | none => st.processed_messages
          last_response_time := setAssoc st.last_response_time md.from_number now }
      md (strTrim md.body)
    refine ⟨hp.1, ?_⟩
    rw [hp.2]
    exact lookupAssoc_setAssoc_self _ _ _

theorem c6_cooldown_window_semantics_witness :
    lookupAssoc c6State.last_response_time "5215664087506@c.us" = some 0 ∧
    (handle_user_message sampleCfg 3 c6State (operatorMsg "hola" none)).1 =
      RouterResult.statusResult "rate_limited" "Too soon since last response" := by
  have h := c6_cooldown_window_semantics sampleCfg 3 0 c6State
    (operatorMsg "hola" none) (by decide) (by decide) (by decide) (by decide)
    (by decide) (by decide) (by decide)
  exact ⟨by decide, (h.1 (by decide)).1⟩

/-- C7 counterexample: the claim requires a `pending_actions` outcome only
    when a status=pending, unexpired action exists.  With a store holding a
    single already-approved action and the free-text body "hola amigo", the
    dispatch still returns `pending_actions`: the effective
    `get_pending_actions` (the second, shadowing definition) ignores status
    and expiry, so the claim's "only if" direction fails (the shadowed
    pending-and-unexpired filter is empty, third conjunct). -/
theorem c7_resolved_action_still_blocks :
    (handle_user_message sampleCfg 10 c7State (operatorMsg "hola amigo" none)).1 =
      RouterResult.statusResult "pending_actions"
        "Please respond to pending actions first" ∧
    c7State.hitl.get_pending_actions_first 10 = [] ∧
    c7State.hitl.get_pending_actions none ≠ [] := by
  decide

/-- C7 (amended): for an operator event that reaches the pending-action gate
    (passes the loop guards, is not rate-limited, is not resolved by the
    approval matcher, and is not a slash command), the dispatch returns
    `pending_actions` iff the action store is non-empty — any stored action,
    whatever its status or expiry, triggers the block — and the body does
    not contain one of the router's marker tokens (✅, ❌, sí, no, yes,
    aprobar, rechazar), which would instead yield `hitl_processing`. -/
theorem c7_pending_gate_iff_store_nonempty (cfg : Config) (now : Int)
    (st : RouterState) (md : MessageData)
    (hstop : st.emergency_stop = false)
    (hlen : ¬ strLen (strTrim md.body) < 2)
    (hfm : md.is_from_me = false)
    (hack : ack_words.any (fun w => containsSub (strLower (strTrim md.body)) w) = false)
    (hass : assistant_responses.any
      (fun r => containsSub (strLower (strTrim md.body)) r) = false)
    (hid : (effective_message_id md).all
      (fun mid => !(st.processed_messages.contains mid)) = true)
    (hcool : (lookupAssoc st.last_response_time md.from_number).all
      (fun t => !(decide (now - t < response_cooldown))) = true)
    (hns : ∀ r, (st.hitl.process_user_response now (strTrim md.body)
      md.from_number).1 = some r → r.success = false)
    (hslash : strStarts (strTrim md.body) "/" = false) :
    ((handle_user_message cfg now st md).1 =
       RouterResult.statusResult "pending_actions"
         "Please respond to pending actions first")
    ↔ (st.hitl.pending_actions ≠ [] ∧
       router_hitl_words.any
         (fun w => containsSub (strLower (strTrim md.body)) w) = false) := by
  rw [handle_user_message_eq cfg now st md hstop hlen hfm hack hass hid]
  unfold cooldown_stage
  dsimp only
  have hafter :
      ∀ st1 : RouterState, st1.hitl = st.hitl →
      (((after_cooldown cfg now st1 md (strTrim md.body)).1 =
         RouterResult.statusResult "pending_actions"
           "Please respond to pending actions first")
      ↔ (st.hitl.pending_actions ≠ [] ∧
         router_hitl_words.any
           (fun w => containsSub (strLower (strTrim md.body)) w) = false)) := by
    intro st1 hh
    unfold after_cooldown
    rcases hpr : st1.hitl.process_user_response now (strTrim md.body) md.from_number
      with ⟨ropt, hitl'⟩
    have hunch : hitl' = st.hitl := by
      have hlem := process_user_response_not_success st1.hitl now (strTrim md.body)
        md.from_number (by rw [hh]; exact hns)
      rw [hpr] at hlem
      simpa [hh] using hlem
    simp only [hpr]
    have hstage :
        ((after_hitl_stage cfg { st1 with hitl := hitl' } md (strTrim md.body)
           (response_phone_for md)).1 =
         RouterResult.statusResult "pending_actions"
           "Please respond to pending actions first")
        ↔ (st.hitl.pending_actions ≠ [] ∧
           router_hitl_words.any
             (fun w => containsSub (strLower (strTrim md.body)) w) = false) := by
      unfold after_hitl_stage
      rw [if_neg (by simp [hslash])]
      dsimp only
      rw [hunch]
      by_cases hpend : st.hitl.pending_actions.isEmpty = true
      · have hnil : st.hitl.pending_actions = [] := by
          simpa [List.isEmpty_iff] using hpend
        rw [if_neg (by simp [HITLState.get_pending_actions, hpend])]
        constructor
        · intro hres
          by_cases hreal : is_real_user_message md = true
          · rw [if_neg (by simp [hreal]), if_neg (by simp [hslash])] at hres
            simp [handle_ai_conversation] at hres
          · have hrf : is_real_user_message md = false := by simpa using hreal
            rw [if_pos (by simp [hrf])] at hres
            simp at hres
        · intro hrhs
          exact absurd hnil hrhs.1
      · have hne : st.hitl.pending_actions ≠ [] := by
          simpa [List.isEmpty_iff] using hpend
        rw [if_pos (by simp [HITLState.get_pending_actions, List.isEmpty_iff, hne])]
        by_cases hw : router_hitl_words.any
            (fun w => containsSub (strLower (strTrim md.body)) w) = true
        · rw [if_pos hw]
          simp [hw, hne]
        · rw [if_neg hw]
          simp only [Bool.not_eq_true] at hw
          simp [hw, hne]
    cases ropt with
    | some r =>
      dsimp only
      rw [if_neg (by simp [hns r (by rw [← hh, hpr])])]
      exact hstage
    | none =>
      dsimp only
      exact hstage
  cases hled : lookupAssoc st.last_response_time md.from_number with
  | none =>
    dsimp only
    exact hafter _ rfl
  | some t =>
    rw [hled] at hcool
    dsimp only
    rw [if_neg (by simpa using hcool)]
    exact hafter _ rfl

theorem c7_pending_gate_iff_store_nonempty_witness :
    (handle_user_message sampleCfg 10 c7State (operatorMsg "hola amigo" none)).1 =
      RouterResult.statusResult "pending_actions"
        "Please respond to pending actions first" := by
  have hnone : (c7State.hitl.process_user_response 10
      (strTrim (operatorMsg "hola amigo" none).body)
      (operatorMsg "hola amigo" none).from_number).1 = none := by
    decide
  refine (c7_pending_gate_iff_store_nonempty sampleCfg 10 c7State
    (operatorMsg "hola amigo" none) (by decide) (by decide) (by decide)
    (by decide) (by decide) (by decide) (by decide) ?_ (by decide)).mpr
    ⟨by decide, by decide⟩
  intro r hr
  rw [hnone] at hr
  cases hr

/-- C8: the recent-outbound cache behaviour of `_is_duplicate_message`.  A
    body already cached for the recipient is reported as duplicate (true,
    suppressing the send at the call site) and leaves that recipient's cache
    unchanged; a body not in the cache is reported as non-duplicate and
    appended, evicting from the front once the capacity of 5 is exceeded; a
    cache within capacity stays within capacity; at exactly capacity 5 the
    eviction is FIFO — the oldest entry is dropped. -/
theorem c8_recent_outbound_cache_bounded_fifo (st : RouterState)
    (phone message : String) (msgs : List String)
    (hlook : (lookupAssoc st.recent_messages phone).getD [] = msgs) :
    (msgs.contains message = true →
       (is_duplicate_message st phone message).1 = true ∧
       lookupAssoc (is_duplicate_message st phone message).2.recent_messages phone =
         some msgs) ∧
    (msgs.contains message = false →
       (is_duplicate_message st phone message).1 = false ∧
       lookupAssoc (is_duplicate_message st phone message).2.recent_messages phone =
         some (if (msgs ++ [message]).length > max_recent_messages
               then (msgs ++ [message]).drop
                 ((msgs ++ [message]).length - max_recent_messages)
               else msgs ++ [message]) ∧
       (msgs.length ≤ max_recent_messages →
          ∀ l, lookupAssoc (is_duplicate_message st phone message).2.recent_messages
              phone = some l →
            l.length ≤ max_recent_messages) ∧
       (msgs.length = max_recent_messages →
          lookupAssoc (is_duplicate_message st phone message).2.recent_messages phone =
            some (msgs.drop 1 ++ [message]))) := by
  unfold is_duplicate_message
  rw [hlook]
  constructor
  · intro hc
    rw [if_pos hc]
    exact ⟨rfl, lookupAssoc_setAssoc_self _ _ _⟩
  · intro hc
    rw [if_neg (by simpa using hc)]
    dsimp only
    refine ⟨rfl, lookupAssoc_setAssoc_self _ _ _, ?_, ?_⟩
    · intro hle l hl
      rw [lookupAssoc_setAssoc_self] at hl
      obtain rfl := Option.some.inj hl
      split
      · rw [List.length_drop]
        simp only [max_recent_messages] at *
        omega
      · case isFalse h6 =>
        simp only [List.length_append, List.length_cons, List.length_nil,
          max_recent_messages] at h6 ⊢
        omega
    · intro h5
      rw [lookupAssoc_setAssoc_self]
      have hlen6 : (msgs ++ [message]).length = 6 := by
        simp [h5, max_recent_messages]
      rw [if_pos (by rw [hlen6]; simp [max_recent_messages]), hlen6]
      have h61 : (6 : Nat) - max_recent_messages = 1 := by
        simp [max_recent_messages]
      rw [h61,
          List.drop_append_of_le_length (by rw [h5]; simp [max_recent_messages])]

theorem c8_recent_outbound_cache_bounded_fifo_witness :
    (is_duplicate_message c8CacheState "p1" "c").1 = true ∧
    (is_duplicate_message c8CacheState "p1" "f").1 = false ∧
    lookupAssoc (is_duplicate_message c8CacheState "p1" "f").2.recent_messages
      "p1" = some ["b", "c", "d", "e", "f"] := by
  have h1 := c8_recent_outbound_cache_bounded_fifo c8CacheState "p1" "c"
    ["a", "b", "c", "d", "e"] (by decide)
  have h2 := c8_recent_outbound_cache_bounded_fifo c8CacheState "p1" "f"
    ["a", "b", "c", "d", "e"] (by decide)
  refine ⟨(h1.1 (by decide)).1, (h2.2 (by decide)).1, ?_⟩
  exact ((h2.2 (by decide)).2.2.2 (by decide)).trans (by decide)

/-- C9: intent classification is bare substring containment.  With no
    operator-configured pattern matching the message, any message whose
    normalized (lowercased, stripped) text contains the letter "y" anywhere
    classifies as approve (the built-in token list contains the single
    letter "y"); any message matching none of the approval tokens whose text
    contains "n" classifies as reject; and with a pending unexpired action
    outstanding, such free text (carrying no explicit action id) resolves
    that action to approved through `process_user_response`. -/
theorem c9_substring_intent_classification (h : HITLState) (now : Int)
    (msg phone : String) (a : PendingAction)
    (hauto1 : h.auto_approve_patterns.any
      (fun p => containsSub (strTrim (strLower msg)) (strLower p)) = false)
    (hauto2 : h.auto_reject_patterns.any
      (fun p => containsSub (strTrim (strLower msg)) (strLower p)) = false) :
    (containsSub (strTrim (strLower msg)) "y" = true →
       h.check_approval_patterns msg = some "approve") ∧
    (approval_words.any (fun w => containsSub (strTrim (strLower msg)) w) = false →
     containsSub (strTrim (strLower msg)) "n" = true →
       h.check_approval_patterns msg = some "reject") ∧
    (extract_action_id msg = none →
     containsSub (strTrim (strLower msg)) "y" = true →
     h.most_recent_pending now = some a →
     h.get_pending_action a.id = some a →
     a.is_expired now = false →
       ((h.process_user_response now msg phone).1.map (fun r => r.success) =
          some true ∧
        ((h.process_user_response now msg phone).2.get_pending_action a.id).map
          (fun x => x.status) = some "approved")) := by
  have approve_case : containsSub (strTrim (strLower msg)) "y" = true →
      h.check_approval_patterns msg = some "approve" := by
    intro hy
    unfold HITLState.check_approval_patterns
    rw [if_neg (by simp [hauto1]), if_neg (by simp [hauto2]),
        if_pos (List.any_eq_true.mpr ⟨"y", by simp [approval_words], hy⟩)]
  refine ⟨approve_case, ?_, ?_⟩
  · intro hap hn
    unfold HITLState.check_approval_patterns
    rw [if_neg (by simp [hauto1]), if_neg (by simp [hauto2]),
        if_neg (by simp [hap]),
        if_pos (List.any_eq_true.mpr ⟨"n", by simp [rejection_words], hn⟩)]
  · intro hex hy hmr hget hexp
    unfold HITLState.process_user_response
    rw [hex]
    dsimp only
    rw [approve_case hy]
    dsimp only
    rw [hmr]
    dsimp only
    rw [handle_action_response_approve h now a.id msg a hget hexp
      (approve_case hy)]
    dsimp only
    refine ⟨rfl, ?_⟩
    have hidpres : (((a.approve now (some msg)).1).id == a.id) = true := by
      unfold PendingAction.approve
      rw [if_neg (by simp [hexp])]
      simp
    have hstat : ((a.approve now (some msg)).1).status = "approved" := by
      unfold PendingAction.approve
      rw [if_neg (by simp [hexp])]
    unfold HITLState.get_pending_action at hget ⊢
    dsimp only
    rw [find?_updateAction _ _ _ hidpres, hget]
    simp [hstat]

theorem c9_substring_intent_classification_witness :
    c9Hitl.check_approval_patterns "maybe" = some "approve" ∧
    c9Hitl.check_approval_patterns "nunca" = some "reject" ∧
    (c9Hitl.process_user_response 10 "maybe" "p").1.map (fun r => r.success) =
      some true := by
  have h := c9_substring_intent_classification c9Hitl 10 "maybe" "p" c9Action
    (by decide) (by decide)
  have h2 := c9_substring_intent_classification c9Hitl 10 "nunca" "p" c9Action
    (by decide) (by decide)
  exact ⟨h.1 (by decide), h2.2.1 (by decide) (by decide),
    (h.2.2 (by decide) (by decide) (by decide) (by decide) (by decide)).1⟩

set_option maxRecDepth 10000 in
/-- C10 counterexample: consumption of a rate-limited event is not
    permanent.  The event "m0" is rate-limited at t=1 (first conjunct); 100
    further dispatches with fresh ids overflow the 100-entry processed-id
    set, whose eviction drops the older half including "m0" (second
    conjunct); the redelivery of the identical event at t=100 is then fully
    handled — it produces an outbound send and no `skipped` outcome — so
    "any later redelivery returns skipped / the message is never handled"
    fails. -/
theorem c10_rate_limited_id_eventually_evicted :
    c10First.1 = RouterResult.statusResult "rate_limited"
      "Too soon since last response" ∧
    c10Flooded.processed_messages.contains "m0" = false ∧
    (handle_user_message sampleCfg 100 c10Flooded c10Event).2.2 ≠ [] ∧
    ¬ (handle_user_message sampleCfg 100 c10Flooded c10Event).1.statusTag =
      some "skipped" := by
  decide

/-- C10 (amended): the message id is inserted into the processed-id set
    before the cooldown check runs, so an event rejected as `rate_limited`
    has its id recorded (provided the set was below its 100-entry capacity,
    so no eviction interferes), and a redelivery of the same event while the
    id is still in the set returns `skipped` ("Already processed") with no
    state change and no send; the id is consumed until evicted, not
    permanently. -/
theorem c10_rate_limited_consumed_until_eviction (cfg : Config) (t1 t2 : Int)
    (st : RouterState) (md : MessageData) (mid : String)
    (hmid : effective_message_id md = some mid)
    (hcap : st.processed_messages.length < 100)
    (hrl : (handle_user_message cfg t1 st md).1 =
      RouterResult.statusResult "rate_limited" "Too soon since last response") :
    (handle_user_message cfg t1 st md).2.1.processed_messages.contains mid = true ∧
    handle_user_message cfg t2 (handle_user_message cfg t1 st md).2.1 md =
      (RouterResult.statusResult "skipped" "Already processed",
       (handle_user_message cfg t1 st md).2.1, []) := by
  have hrl' := hrl
  unfold handle_user_message at hrl'
  by_cases hstop : st.emergency_stop = true
  · rw [if_pos hstop] at hrl'
    dsimp only at hrl'
    exact absurd hrl' (by decide)
  rw [if_neg hstop] at hrl'
  have hstopf : st.emergency_stop = false := by simpa using hstop
  dsimp only at hrl'
  by_cases hlen : strLen (strTrim md.body) < 2
  · rw [if_pos hlen] at hrl'
    dsimp only at hrl'
    exact absurd hrl' (by decide)
  rw [if_neg hlen] at hrl'
  by_cases hfm : md.is_from_me = true
  · rw [if_pos hfm] at hrl'
    dsimp only at hrl'
    exact absurd hrl' (by decide)
  rw [if_neg hfm] at hrl'
  have hfmf : md.is_from_me = false := by simpa using hfm
  by_cases hack : (ack_words.any
      (fun w => containsSub (strLower (strTrim md.body)) w)) = true
  · rw [if_pos hack] at hrl'
    dsimp only at hrl'
    exact absurd hrl' (by decide)
  rw [if_neg hack] at hrl'
  have hackf : (ack_words.any
      (fun w => containsSub (strLower (strTrim md.body)) w)) = false := by
    simpa using hack
  by_cases hass : (assistant_responses.any
      (fun r => containsSub (strLower (strTrim md.body)) r)) = true
  · rw [if_pos hass] at hrl'
    dsimp only at hrl'
    exact absurd hrl' (by decide)
  rw [if_neg hass] at hrl'
  have hassf : (assistant_responses.any
      (fun r => containsSub (strLower (strTrim md.body)) r)) = false := by
    simpa using hass
  rw [hmid] at hrl'
  dsimp only at hrl'
  by_cases hmem : st.processed_messages.contains mid = true
  · rw [if_pos hmem] at hrl'
    dsimp only at hrl'
    exact absurd hrl' (by decide)
  rw [if_neg hmem] at hrl'
  have hmemf : st.processed_messages.contains mid = false := by simpa using hmem
  have heq := handle_user_message_eq cfg t1 st md hstopf hlen hfmf hackf hassf
    (by rw [hmid]; simpa using hmemf)
  rw [hmid] at heq
  have hnoevict : evict_processed (st.processed_messages ++ [mid]) =
      st.processed_messages ++ [mid] := by
    unfold evict_processed
    rw [if_neg (by simp; omega)]
  rw [heq] at hrl ⊢
  unfold cooldown_stage at hrl ⊢
  dsimp only at hrl ⊢
  cases hled : lookupAssoc st.last_response_time md.from_number with
  | none =>
    rw [hled] at hrl
    dsimp only at hrl
    have hprops := (after_cooldown_props cfg t1
      { st with
          processed_messages := evict_processed (st.processed_messages ++ [mid])
          last_response_time := setAssoc st.last_response_time md.from_number t1 }
      md (strTrim md.body)).1
    rw [hrl] at hprops
    exact absurd rfl hprops
  | some t =>
    rw [hled] at hrl
    dsimp only at hrl ⊢
    by_cases hw : t1 - t < response_cooldown
    · rw [if_pos hw] at hrl ⊢
      dsimp only
      constructor
      · rw [hnoevict]
        simp
      · unfold handle_user_message
        rw [if_neg (by simpa using hstopf)]
        dsimp only
        rw [if_neg hlen, if_neg (by simp [hfmf]), if_neg (by simp [hackf]),
            if_neg (by simp [hassf]), hmid]
        dsimp only
        rw [if_pos (by rw [hnoevict]; simp)]
    · rw [if_neg hw] at hrl
      have hprops := (after_cooldown_props cfg t1
        { st with
            processed_messages := evict_processed (st.processed_messages ++ [mid])
            last_response_time := setAssoc st.last_response_time md.from_number t1 }
        md (strTrim md.body)).1
      rw [hrl] at hprops
      exact absurd rfl hprops

theorem c10_rate_limited_consumed_until_eviction_witness :
    (handle_user_message sampleCfg 3 c6State (operatorMsg "hola" (some "w0"))).1 =
      RouterResult.statusResult "rate_limited" "Too soon since last response" ∧
    (handle_user_message sampleCfg 3 c6State
      (operatorMsg "hola" (some "w0"))).2.1.processed_messages.contains "w0" =
        true ∧
    handle_user_message sampleCfg 99
      (handle_user_message sampleCfg 3 c6State (operatorMsg "hola" (some "w0"))).2.1
      (operatorMsg "hola" (some "w0")) =
      (RouterResult.statusResult "skipped" "Already processed",
       (handle_user_message sampleCfg 3 c6State
         (operatorMsg "hola" (some "w0"))).2.1, []) := by
  have h := c10_rate_limited_consumed_until_eviction sampleCfg 3 99 c6State
    (operatorMsg "hola" (some "w0")) "w0" (by decide) (by decide) (by decide)
  exact ⟨by decide, h.1, h.2⟩

end Assistant
